import Mathlib

/-!
Verification of the pantomime-parser JVM class-file decoder.

The Rust sources (src/lib.rs, src/components.rs, src/primitives.rs) are
shallowly embedded below.  A byte stream is a `List Nat` whose elements play
the role of `u8` values (every read reduces the element mod 256, mirroring
the `u8` type of the Rust byte iterator).  Fallible Rust functions returning
`ParserResult<T>` become functions into `Except ParserError (T × List Nat)`,
threading the remaining stream explicitly where Rust mutates a cursor.
`usize` and `u16` subtraction is modelled with explicit wrap-around
(mod 2^64 and mod 2^16), matching Rust release-mode wrapping arithmetic.
Reference-counted handles (Rc) are modelled as plain values.
-/

namespace Pantomime

/-- Error type, from `ParserError` in src/lib.rs.  The only I/O error the
decoder itself produces is the end-of-file error built by `new_eof_error`
in src/primitives.rs, modelled here as `UnexpectedEndOfInput` (the spec's
name for it); `InvalidUtf8` corresponds to the `FromUtf8Error` conversion. -/
inductive ParserError where
  | UnknownConstantPoolTag (tag : Nat)
  | UnexpectedConstantPoolItem (name : String)
  | ConstantPoolIndexOutOfBounds (index : Nat)
  | InvalidUtf8
  | UnexpectedEndOfInput
  deriving DecidableEq, Repr

/-- Reading one byte, from `PrimitiveIterator::next_u1` in src/primitives.rs:
yields the next byte or the end-of-file error.  The mod 256 records that the
Rust iterator yields `u8` values. -/
def next_u1 : List Nat → Except ParserError (Nat × List Nat)
  | [] => .error .UnexpectedEndOfInput
  | b :: rest => .ok (b % 256, rest)

/-- Big-endian 16-bit read, from `PrimitiveIterator::next_u2`:
`(first << 8) + second` on u16 (no overflow since first < 256). -/
def next_u2 (s : List Nat) : Except ParserError (Nat × List Nat) := do
  let (first, s1) ← next_u1 s
  let (second, s2) ← next_u1 s1
  .ok (first * 256 + second, s2)

/-- Big-endian 32-bit read, from `PrimitiveIterator::next_u4`:
`(first << 16) + second` on u32 (no overflow since first < 2^16). -/
def next_u4 (s : List Nat) : Except ParserError (Nat × List Nat) := do
  let (first, s1) ← next_u2 s
  let (second, s2) ← next_u2 s1
  .ok (first * 65536 + second, s2)

/-- Reading a run of `n` raw bytes, modelling the Rust pattern
`for _ in 0..n { vec.push(try!(iter.next_u1())) }` used for Utf8 payloads,
code arrays and opaque attribute bodies. -/
def read_bytes : Nat → List Nat → Except ParserError (List Nat × List Nat)
  | 0, s => .ok ([], s)
  | n + 1, s => do
    let (b, s1) ← next_u1 s
    let (bs, s2) ← read_bytes n s1
    .ok (b :: bs, s2)

/-- Standard UTF-8 validity (what Rust `String::from_utf8` checks): ASCII,
well-formed continuation bytes, no overlong forms, no surrogates, and
nothing above U+10FFFF. -/
def utf8Valid : List Nat → Bool
  | [] => true
  | b :: rest =>
    if b ≤ 0x7F then utf8Valid rest
    else if 0xC2 ≤ b ∧ b ≤ 0xDF then
      match rest with
      | b2 :: r => if 0x80 ≤ b2 ∧ b2 ≤ 0xBF then utf8Valid r else false
      | [] => false
    else if 0xE0 ≤ b ∧ b ≤ 0xEF then
      match rest with
      | b2 :: b3 :: r =>
        if (if b = 0xE0 then 0xA0 ≤ b2 ∧ b2 ≤ 0xBF
            else if b = 0xED then 0x80 ≤ b2 ∧ b2 ≤ 0x9F
            else 0x80 ≤ b2 ∧ b2 ≤ 0xBF) ∧ 0x80 ≤ b3 ∧ b3 ≤ 0xBF
        then utf8Valid r else false
      | _ => false
    else if 0xF0 ≤ b ∧ b ≤ 0xF4 then
      match rest with
      | b2 :: b3 :: b4 :: r =>
        if (if b = 0xF0 then 0x90 ≤ b2 ∧ b2 ≤ 0xBF
            else if b = 0xF4 then 0x80 ≤ b2 ∧ b2 ≤ 0x8F
            else 0x80 ≤ b2 ∧ b2 ≤ 0xBF)
           ∧ 0x80 ≤ b3 ∧ b3 ≤ 0xBF ∧ 0x80 ≤ b4 ∧ b4 ≤ 0xBF
        then utf8Valid r else false
      | _ => false
    else false

/-- Rust `String::from_utf8`: keeps the byte content on success (a Rust
String is exactly its UTF-8 bytes), fails with the UTF-8 error otherwise. -/
def string_from_utf8 (bs : List Nat) : Except ParserError (List Nat) :=
  if utf8Valid bs then .ok bs else .error .InvalidUtf8

/-- ClassInfo payload, from src/components.rs. -/
structure ClassInfo where
  tag : Nat
  name_index : Nat
  deriving DecidableEq, Repr

/-- Shared payload of Field / Method / InterfaceMethod entries. -/
structure FieldOrMethodOrInterfaceMethodInfo where
  tag : Nat
  class_index : Nat
  name_and_type_index : Nat
  deriving DecidableEq, Repr

/-- Shared payload of Integer / Float entries. -/
structure IntegerOrFloatInfo where
  tag : Nat
  bytes : Nat
  deriving DecidableEq, Repr

/-- Shared payload of Long / Double entries. -/
structure LongOrDoubleInfo where
  tag : Nat
  high_bytes : Nat
  low_bytes : Nat
  deriving DecidableEq, Repr

/-- String payload. -/
structure StringInfo where
  tag : Nat
  string_index : Nat
  deriving DecidableEq, Repr

/-- NameAndType payload. -/
structure NameAndTypeInfo where
  tag : Nat
  name_index : Nat
  descriptor_index : Nat
  deriving DecidableEq, Repr

/-- Utf8 payload; `value` is the (validated) UTF-8 byte content of the Rust
String. -/
structure Utf8Info where
  tag : Nat
  length : Nat
  value : List Nat
  deriving DecidableEq, Repr

/-- The constant-pool entry type, from the `ConstantPoolItem` enum in
src/components.rs (Rc handles flattened to plain payload values). -/
inductive ConstantPoolItem where
  | Empty
  | Class (info : ClassInfo)
  | Field (info : FieldOrMethodOrInterfaceMethodInfo)
  | Method (info : FieldOrMethodOrInterfaceMethodInfo)
  | InterfaceMethod (info : FieldOrMethodOrInterfaceMethodInfo)
  | String (info : StringInfo)
  | Integer (info : IntegerOrFloatInfo)
  | Float (info : IntegerOrFloatInfo)
  | Long (info : LongOrDoubleInfo)
  | Double (info : LongOrDoubleInfo)
  | NameAndType (info : NameAndTypeInfo)
  | Utf8 (info : Utf8Info)
  | MethodHandle (tag : Nat) (reference_kind : Nat) (reference_index : Nat)
  | MethodType (tag : Nat) (descriptor_index : Nat)
  | InvokeDynamic (tag : Nat) (bootstrap_method_attr_index : Nat)
      (name_and_type_index : Nat)
  deriving DecidableEq, Repr

/-- Decoding one constant-pool entry, from `ConstantPoolItem::from` in
src/components.rs: read one tag byte, dispatch on it, decode the
tag-specific payload.  Note the Rust match has arms only for tags
1, 3, 4, 5, 6, 7, 8, 9, 10, 11, 12; every other value (including 15, 16
and 18, whose variants exist in the enum) falls to the
UnknownConstantPoolTag arm. -/
def ConstantPoolItem.fromBytes (s : List Nat) :
    Except ParserError (ConstantPoolItem × List Nat) := do
  let (tag, s1) ← next_u1 s
  match tag with
  | 1 => do
    let (length, s2) ← next_u2 s1
    let (byte_vec, s3) ← read_bytes length s2
    let value ← string_from_utf8 byte_vec
    .ok (.Utf8 ⟨tag, length, value⟩, s3)
  | 3 => do
    let (bytes, s2) ← next_u4 s1
    .ok (.Integer ⟨tag, bytes⟩, s2)
  | 4 => do
    let (bytes, s2) ← next_u4 s1
    .ok (.Float ⟨tag, bytes⟩, s2)
  | 5 => do
    let (high_bytes, s2) ← next_u4 s1
    let (low_bytes, s3) ← next_u4 s2
    .ok (.Long ⟨tag, high_bytes, low_bytes⟩, s3)
  | 6 => do
    let (high_bytes, s2) ← next_u4 s1
    let (low_bytes, s3) ← next_u4 s2
    .ok (.Double ⟨tag, high_bytes, low_bytes⟩, s3)
  | 7 => do
    let (name_index, s2) ← next_u2 s1
    .ok (.Class ⟨tag, name_index⟩, s2)
  | 8 => do
    let (string_index, s2) ← next_u2 s1
    .ok (.String ⟨tag, string_index⟩, s2)
  | 9 => do
    let (class_index, s2) ← next_u2 s1
    let (name_and_type_index, s3) ← next_u2 s2
    .ok (.Field ⟨tag, class_index, name_and_type_index⟩, s3)
  | 10 => do
    let (class_index, s2) ← next_u2 s1
    let (name_and_type_index, s3) ← next_u2 s2
    .ok (.Method ⟨tag, class_index, name_and_type_index⟩, s3)
  | 11 => do
    let (class_index, s2) ← next_u2 s1
    let (name_and_type_index, s3) ← next_u2 s2
    .ok (.InterfaceMethod ⟨tag, class_index, name_and_type_index⟩, s3)
  | 12 => do
    let (name_index, s2) ← next_u2 s1
    let (descriptor_index, s3) ← next_u2 s2
    .ok (.NameAndType ⟨tag, name_index, descriptor_index⟩, s3)
  | _ => .error (.UnknownConstantPoolTag tag)

/-- Alias for the static string type returned by the friendly-name function
(avoids the name clash with the String constructor of ConstantPoolItem
inside that namespace). -/
abbrev FriendlyName := String

/-- Friendly name of an entry, from `ConstantPoolItem::to_friendly_name`.
The Rust match has a catch-all arm returning the literal
"Not yet implemented"; it covers Long, Double, MethodHandle, MethodType
and InvokeDynamic. -/
def ConstantPoolItem.to_friendly_name : ConstantPoolItem → FriendlyName
  | .Empty => "Empty"
  | .Utf8 _ => "Utf8"
  | .Class _ => "Class"
  | .String _ => "String"
  | .Field _ => "Field"
  | .Method _ => "Method"
  | .InterfaceMethod _ => "InterfaceMethod"
  | .Integer _ => "Integer"
  | .Float _ => "Float"
  | .NameAndType _ => "NameAndType"
  | _ => "Not yet implemented"

/-- Index shift, from `ConstantPoolItem::shift_index`:
`unshifted_index - 1` on usize.  Subtraction wraps mod 2^64
(release-mode Rust semantics); for inputs ≥ 1 this is ordinary
subtraction, for 0 it wraps to 2^64 - 1. -/
def ConstantPoolItem.shift_index (unshifted_index : Nat) : Nat :=
  (unshifted_index + (2 ^ 64 - 1)) % 2 ^ 64

/-- The body that the Rust code-generation template
`generate_constant_pool_retrieval_method!` expands to, parameterised by the
variant selector: shift the index, look the slot up, return the payload when
the variant matches, otherwise the UnexpectedConstantPoolItem error with the
slot's friendly name; a missing slot is ConstantPoolIndexOutOfBounds. -/
def constant_pool_retrieval_method {α : Type} (matcher : ConstantPoolItem → Option α)
    (index : Nat) (constant_pool : List ConstantPoolItem) : Except ParserError α :=
  let actual_index := ConstantPoolItem.shift_index index
  match constant_pool[actual_index]? with
  | some item =>
    match matcher item with
    | some v => .ok v
    | none => .error (.UnexpectedConstantPoolItem item.to_friendly_name)
  | none => .error (.ConstantPoolIndexOutOfBounds actual_index)

/-- Generated accessor `retrieve_class_info`. -/
def ConstantPoolItem.retrieve_class_info :
    Nat → List ConstantPoolItem → Except ParserError ClassInfo :=
  constant_pool_retrieval_method fun item =>
    match item with
    | .Class v => some v
    | _ => none

/-- Generated accessor `retrieve_utf8_info`. -/
def ConstantPoolItem.retrieve_utf8_info :
    Nat → List ConstantPoolItem → Except ParserError Utf8Info :=
  constant_pool_retrieval_method fun item =>
    match item with
    | .Utf8 v => some v
    | _ => none

/-- Generated accessor `retrieve_field_info`. -/
def ConstantPoolItem.retrieve_field_info :
    Nat → List ConstantPoolItem → Except ParserError FieldOrMethodOrInterfaceMethodInfo :=
  constant_pool_retrieval_method fun item =>
    match item with
    | .Field v => some v
    | _ => none

/-- Generated accessor `retrieve_method_info`. -/
def ConstantPoolItem.retrieve_method_info :
    Nat → List ConstantPoolItem → Except ParserError FieldOrMethodOrInterfaceMethodInfo :=
  constant_pool_retrieval_method fun item =>
    match item with
    | .Method v => some v
    | _ => none

/-- Generated accessor `retrieve_interface_method_info`. -/
def ConstantPoolItem.retrieve_interface_method_info :
    Nat → List ConstantPoolItem → Except ParserError FieldOrMethodOrInterfaceMethodInfo :=
  constant_pool_retrieval_method fun item =>
    match item with
    | .InterfaceMethod v => some v
    | _ => none

/-- Generated accessor `retrieve_integer_info`. -/
def ConstantPoolItem.retrieve_integer_info :
    Nat → List ConstantPoolItem → Except ParserError IntegerOrFloatInfo :=
  constant_pool_retrieval_method fun item =>
    match item with
    | .Integer v => some v
    | _ => none

/-- Generated accessor `retrieve_float_info`. -/
def ConstantPoolItem.retrieve_float_info :
    Nat → List ConstantPoolItem → Except ParserError IntegerOrFloatInfo :=
  constant_pool_retrieval_method fun item =>
    match item with
    | .Float v => some v
    | _ => none

/-- Generated accessor `retrieve_long_info`. -/
def ConstantPoolItem.retrieve_long_info :
    Nat → List ConstantPoolItem → Except ParserError LongOrDoubleInfo :=
  constant_pool_retrieval_method fun item =>
    match item with
    | .Long v => some v
    | _ => none

/-- Generated accessor `retrieve_double_info`. -/
def ConstantPoolItem.retrieve_double_info :
    Nat → List ConstantPoolItem → Except ParserError LongOrDoubleInfo :=
  constant_pool_retrieval_method fun item =>
    match item with
    | .Double v => some v
    | _ => none

/-- Generated accessor `retrieve_string_info`. -/
def ConstantPoolItem.retrieve_string_info :
    Nat → List ConstantPoolItem → Except ParserError StringInfo :=
  constant_pool_retrieval_method fun item =>
    match item with
    | .String v => some v
    | _ => none

/-- Generated accessor `retrieve_name_and_type_info`. -/
def ConstantPoolItem.retrieve_name_and_type_info :
    Nat → List ConstantPoolItem → Except ParserError NameAndTypeInfo :=
  constant_pool_retrieval_method fun item =>
    match item with
    | .NameAndType v => some v
    | _ => none

/-- Loop body of `ClassFile::build_constant_pool` in src/lib.rs: iterate
`count` times over a should-skip flag and an accumulating pool vector;
a Long or Double entry pushes itself plus the Empty placeholder and sets
the flag so the next iteration consumes no tag byte. -/
def build_constant_pool_loop :
    Nat → Bool → List ConstantPoolItem → List Nat →
    Except ParserError (List ConstantPoolItem × List Nat)
  | 0, _, constant_pool, s => .ok (constant_pool, s)
  | n + 1, true, constant_pool, s =>
    build_constant_pool_loop n false constant_pool s
  | n + 1, false, constant_pool, s =>
    match ConstantPoolItem.fromBytes s with
    | .error e => .error e
    | .ok (item, s') =>
      match item with
      | .Long info =>
        build_constant_pool_loop n true
          (constant_pool ++ [.Long info, .Empty]) s'
      | .Double info =>
        build_constant_pool_loop n true
          (constant_pool ++ [.Double info, .Empty]) s'
      | other => build_constant_pool_loop n false (constant_pool ++ [other]) s'

/-- Entry point of `ClassFile::build_constant_pool`: the loop started with
the flag down and an empty pool. -/
def ClassFile.build_constant_pool (constant_pool_count : Nat) (s : List Nat) :
    Except ParserError (List ConstantPoolItem × List Nat) :=
  build_constant_pool_loop constant_pool_count false [] s

/-- Long-or-Double test used to state the double-slot invariant. -/
def isLongOrDouble : ConstantPoolItem → Bool
  | .Long _ => true
  | .Double _ => true
  | _ => false

/-- Exception-handler record, from the `ExceptionHandler` struct in
src/components.rs. -/
structure ExceptionHandler where
  start_pc : Nat
  end_pc : Nat
  handler_pc : Nat
  catch_type : Nat
  deriving DecidableEq, Repr

/-- Decoding one handler record, from `ExceptionHandler::from`. -/
def ExceptionHandler.fromBytes (s : List Nat) :
    Except ParserError (ExceptionHandler × List Nat) := do
  let (start_pc, s1) ← next_u2 s
  let (end_pc, s2) ← next_u2 s1
  let (handler_pc, s3) ← next_u2 s2
  let (catch_type, s4) ← next_u2 s3
  .ok (⟨start_pc, end_pc, handler_pc, catch_type⟩, s4)

/-- The exception-table loop inside `CodeAttribute::from`. -/
def exception_handlers_loop :
    Nat → List Nat → Except ParserError (List ExceptionHandler × List Nat)
  | 0, s => .ok ([], s)
  | n + 1, s => do
    let (h, s1) ← ExceptionHandler.fromBytes s
    let (hs, s2) ← exception_handlers_loop n s1
    .ok (h :: hs, s2)

mutual

/-- Attribute variants, from the `Attribute` enum in src/components.rs. -/
inductive Attribute where
  | Code (code : CodeAttribute)
  | Unknown (attribute_name : Utf8Info) (info : List Nat)

/-- Code-attribute payload, from the `CodeAttribute` struct. -/
inductive CodeAttribute where
  | mk (max_stack : Nat) (max_locals : Nat) (code_length : Nat)
      (code : List Nat) (exception_table_length : Nat)
      (exception_table : List ExceptionHandler) (attributes_count : Nat)
      (attributes : List Attribute)

end

/-- UTF-8 bytes of the literal "Code" compared against the resolved
attribute name in `Attribute::from`. -/
def codeBytes : List Nat := [67, 111, 100, 101]

mutual

/-- Decoding one attribute, from `Attribute::from` in src/components.rs:
read the 2-byte name index, resolve it as Utf8 through the pool, read the
4-byte length, then dispatch on the resolved name: the literal "Code"
delegates to the code-attribute decoder (which does not consult the
declared length); any other name consumes exactly `attribute_length` raw
bytes as an opaque blob.  The extra fuel argument only bounds the
recursion depth; the top-level caller passes more fuel than any run can
consume, so the fuel-exhausted branch is never reached there. -/
def attribute_fromBytes :
    Nat → List Nat → List ConstantPoolItem →
    Except ParserError (Attribute × List Nat)
  | 0, _, _ => .error .UnexpectedEndOfInput
  | fuel + 1, s, constant_pool => do
    let (attribute_name_index, s1) ← next_u2 s
    let attribute_name ←
      ConstantPoolItem.retrieve_utf8_info attribute_name_index constant_pool
    let (attribute_length, s2) ← next_u4 s1
    if attribute_name.value = codeBytes then do
      let (code, s3) ← code_attribute_fromBytes fuel s2 constant_pool
      .ok (.Code code, s3)
    else do
      let (info, s3) ← read_bytes attribute_length s2
      .ok (.Unknown attribute_name info, s3)

/-- Decoding a code attribute, from `CodeAttribute::from`: max-stack,
max-locals, the code array (length-prefixed), the exception table, then
the nested attribute list. -/
def code_attribute_fromBytes :
    Nat → List Nat → List ConstantPoolItem →
    Except ParserError (CodeAttribute × List Nat)
  | 0, _, _ => .error .UnexpectedEndOfInput
  | fuel + 1, s, constant_pool => do
    let (max_stack, s1) ← next_u2 s
    let (max_locals, s2) ← next_u2 s1
    let (code_length, s3) ← next_u4 s2
    let (code, s4) ← read_bytes code_length s3
    let (exception_table_length, s5) ← next_u2 s4
    let (exception_table, s6) ← exception_handlers_loop exception_table_length s5
    let (attributes_count, s7) ← next_u2 s6
    let (attributes, s8) ← attributes_loop fuel attributes_count s7 constant_pool
    .ok (.mk max_stack max_locals code_length code exception_table_length
          exception_table attributes_count attributes, s8)

/-- The repeated attribute-decoding loop (`for _ in 0..count`) shared by
the code attribute, field/method decoding and the class-level attribute
list. -/
def attributes_loop :
    Nat → Nat → List Nat → List ConstantPoolItem →
    Except ParserError (List Attribute × List Nat)
  | _, 0, s, _ => .ok ([], s)
  | 0, _ + 1, _, _ => .error .UnexpectedEndOfInput
  | fuel + 1, n + 1, s, constant_pool => do
    let (a, s1) ← attribute_fromBytes fuel s constant_pool
    let (as', s2) ← attributes_loop fuel n s1 constant_pool
    .ok (a :: as', s2)

end

/-- Field record, from the `Field` struct in src/components.rs. -/
structure Field where
  access_flags : Nat
  name : Utf8Info
  descriptor : Utf8Info
  attributes_count : Nat
  attributes : List Attribute

/-- Method record, from the `Method` struct (same shape as Field; the Rust
impls are produced by one shared code-generation template). -/
structure Method where
  access_flags : Nat
  name : Utf8Info
  descriptor : Utf8Info
  attributes_count : Nat
  attributes : List Attribute

/-- Decoding one field, from the generated `Field::from`: access flags,
name and descriptor indices resolved as Utf8, then the attribute list. -/
def Field.fromBytes (fuel : Nat) (s : List Nat)
    (constant_pool : List ConstantPoolItem) :
    Except ParserError (Field × List Nat) := do
  let (access_flags, s1) ← next_u2 s
  let (name_index, s2) ← next_u2 s1
  let name ← ConstantPoolItem.retrieve_utf8_info name_index constant_pool
  let (descriptor_index, s3) ← next_u2 s2
  let descriptor ←
    ConstantPoolItem.retrieve_utf8_info descriptor_index constant_pool
  let (attributes_count, s4) ← next_u2 s3
  let (attributes, s5) ← attributes_loop fuel attributes_count s4 constant_pool
  .ok (⟨access_flags, name, descriptor, attributes_count, attributes⟩, s5)

/-- Decoding one method, from the generated `Method::from` (identical body
to the field decoder). -/
def Method.fromBytes (fuel : Nat) (s : List Nat)
    (constant_pool : List ConstantPoolItem) :
    Except ParserError (Method × List Nat) := do
  let (access_flags, s1) ← next_u2 s
  let (name_index, s2) ← next_u2 s1
  let name ← ConstantPoolItem.retrieve_utf8_info name_index constant_pool
  let (descriptor_index, s3) ← next_u2 s2
  let descriptor ←
    ConstantPoolItem.retrieve_utf8_info descriptor_index constant_pool
  let (attributes_count, s4) ← next_u2 s3
  let (attributes, s5) ← attributes_loop fuel attributes_count s4 constant_pool
  .ok (⟨access_flags, name, descriptor, attributes_count, attributes⟩, s5)

/-- The interface-index loop (`populate_vec!` over `next_u2`). -/
def u2_loop : Nat → List Nat → Except ParserError (List Nat × List Nat)
  | 0, s => .ok ([], s)
  | n + 1, s => do
    let (v, s1) ← next_u2 s
    let (vs, s2) ← u2_loop n s1
    .ok (v :: vs, s2)

/-- The field loop (`rc_populate_vec!` over `Field::from`). -/
def fields_loop (fuel : Nat) :
    Nat → List Nat → List ConstantPoolItem →
    Except ParserError (List Field × List Nat)
  | 0, s, _ => .ok ([], s)
  | n + 1, s, constant_pool => do
    let (f, s1) ← Field.fromBytes fuel s constant_pool
    let (fs, s2) ← fields_loop fuel n s1 constant_pool
    .ok (f :: fs, s2)

/-- The method loop (`rc_populate_vec!` over `Method::from`). -/
def methods_loop (fuel : Nat) :
    Nat → List Nat → List ConstantPoolItem →
    Except ParserError (List Method × List Nat)
  | 0, s, _ => .ok ([], s)
  | n + 1, s, constant_pool => do
    let (m, s1) ← Method.fromBytes fuel s constant_pool
    let (ms, s2) ← methods_loop fuel n s1 constant_pool
    .ok (m :: ms, s2)

/-- Wrapping u16 decrement: `constant_pool_count - 1` computed on a u16 in
src/lib.rs line 90, with release-mode wrap-around (mod 2^16); the count
read by next_u2 is always < 2^16, so this is ordinary subtraction for
counts ≥ 1 and wraps to 65535 for count 0. -/
def u16_wrapping_sub_one (c : Nat) : Nat :=
  (c + (2 ^ 16 - 1)) % 2 ^ 16

/-- The decoded class file, from the `ClassFile` struct in src/lib.rs. -/
structure ClassFile where
  magic : Nat
  minor_version : Nat
  major_version : Nat
  constant_pool_count : Nat
  constant_pool : List ConstantPoolItem
  access_flags : Nat
  this_class : Nat
  super_class : Nat
  interfaces_count : Nat
  interfaces : List Nat
  fields_count : Nat
  fields : List Field
  methods_count : Nat
  methods : List Method
  attributes_count : Nat
  attributes : List Attribute

/-- Top-level decoding, from `ClassFile::from` in src/lib.rs: magic,
versions, constant pool (with the wrapping count decrement), access flags,
this/super class indices, interfaces, fields, methods and class
attributes, strictly in sequence, failing fast on the first error.  No
field is validated beyond its own decoding: in particular the magic is
stored unchecked and the this/super indices are not resolved.  The fuel
passed to the attribute layer is larger than any terminating run can
consume. -/
def ClassFile.fromBytes (s : List Nat) :
    Except ParserError (ClassFile × List Nat) := do
  let fuel := s.length + 1
  let (magic, s1) ← next_u4 s
  let (minor_version, s2) ← next_u2 s1
  let (major_version, s3) ← next_u2 s2
  let (constant_pool_count, s4) ← next_u2 s3
  let actual_constant_pool_count := u16_wrapping_sub_one constant_pool_count
  let (constant_pool, s5) ←
    ClassFile.build_constant_pool actual_constant_pool_count s4
  let (access_flags, s6) ← next_u2 s5
  let (this_class, s7) ← next_u2 s6
  let (super_class, s8) ← next_u2 s7
  let (interfaces_count, s9) ← next_u2 s8
  let (interfaces, s10) ← u2_loop interfaces_count s9
  let (fields_count, s11) ← next_u2 s10
  let (fields, s12) ← fields_loop fuel fields_count s11 constant_pool
  let (methods_count, s13) ← next_u2 s12
  let (methods, s14) ← methods_loop fuel methods_count s13 constant_pool
  let (attributes_count, s15) ← next_u2 s14
  let (attributes, s16) ← attributes_loop fuel attributes_count s15 constant_pool
  .ok (⟨magic, minor_version, major_version, constant_pool_count,
        constant_pool, access_flags, this_class, super_class,
        interfaces_count, interfaces, fields_count, fields, methods_count,
        methods, attributes_count, attributes⟩, s16)

/-- The double-slot invariant: every Long or Double entry is immediately
followed by the synthetic Empty placeholder (in particular no Long or
Double entry can sit in the last slot). -/
def ldFollowed (pool : List ConstantPoolItem) : Prop :=
  ∀ i item, pool[i]? = some item → isLongOrDouble item = true →
    pool[i + 1]? = some ConstantPoolItem.Empty

/-- Concrete pool bytes: one Long entry (tag 5, value high 0 / low 1),
declared count 2. -/
def c1_stream : List Nat := [5, 0, 0, 0, 0, 0, 0, 0, 1]

/-- The pool the decoder builds from c1_stream. -/
def c1_pool : List ConstantPoolItem := [.Long ⟨5, 0, 1⟩, .Empty]

/-- A complete minimal class-file stream whose magic is 0x00000000: count 1
(so an empty pool), then all remaining counts and indices zero. -/
def c7_stream : List Nat :=
  [0, 0, 0, 0, 0, 0, 0, 0, 0, 1, 0, 0, 0, 0, 0, 0, 0, 0, 0, 0, 0, 0, 0, 0]

/-- The class file decoded from c7_stream. -/
def c7_classfile : ClassFile :=
  ⟨0, 0, 0, 1, [], 0, 0, 0, 0, [], 0, [], 0, [], 0, []⟩

/-- A well-formed minimal stream: magic 0xCAFEBABE, version 52.0, pool with
a Class entry (name index 2) and a Utf8 entry "A", this/super class both
index 1, no interfaces, fields, methods or attributes. -/
def c8_stream : List Nat :=
  [0xCA, 0xFE, 0xBA, 0xBE, 0, 0, 0, 52, 0, 3, 7, 0, 2, 1, 0, 1, 65,
   0, 0, 0, 1, 0, 1, 0, 0, 0, 0, 0, 0, 0, 0]

/-- The class file decoded from c8_stream. -/
def c8_classfile : ClassFile :=
  ⟨0xCAFEBABE, 0, 52, 3, [.Class ⟨7, 2⟩, .Utf8 ⟨1, 1, [65]⟩], 0, 1, 1, 0,
   [], 0, [], 0, [], 0, []⟩

/-- A pool whose slot 1 resolves to the Utf8 name "Code". -/
def c5_pool : List ConstantPoolItem := [.Utf8 ⟨1, 4, codeBytes⟩]

/-- An attribute stream: name index 1 (resolving to "Code"), declared
length 7, followed by a 12-byte code-attribute body (all counts zero). -/
def c5_stream : List Nat :=
  [0, 1, 0, 0, 0, 7, 0, 0, 0, 0, 0, 0, 0, 0, 0, 0, 0, 0]

/-- A pool whose slot 1 resolves to the Utf8 name "A" (not "Code"). -/
def c5w_pool : List ConstantPoolItem := [.Utf8 ⟨1, 1, [65]⟩]

/-- An attribute stream: name index 1, declared length 2, body bytes 9 and
8, then one trailing byte. -/
def c5w_stream : List Nat := [0, 1, 0, 0, 0, 2, 9, 8, 7]

/-- A complete-looking class-file stream whose declared pool count is 0:
the bytes after the count are the (zero) header fields of c7_stream. -/
def c10_stream : List Nat :=
  [0, 0, 0, 0, 0, 0, 0, 0, 0, 0, 0, 0, 0, 0, 0, 0, 0, 0, 0, 0, 0, 0, 0, 0]

/-- Inversion for a successful Except bind. -/
theorem bind_ok {ε α β : Type} {x : Except ε α} {f : α → Except ε β} {b : β}
    (h : x >>= f = .ok b) : ∃ a, x = .ok a ∧ f a = .ok b := by
  cases x with
  | error e => simp [Bind.bind, Except.bind] at h
  | ok a => exact ⟨a, rfl, by simpa [Bind.bind, Except.bind] using h⟩

/-- A successful one-byte read consumes exactly the head byte. -/
theorem next_u1_ok_inv {s : List Nat} {v : Nat} {s' : List Nat}
    (h : next_u1 s = .ok (v, s')) : ∃ a, s = a :: s' ∧ v = a % 256 := by
  cases s with
  | nil => simp [next_u1] at h
  | cons a r =>
    simp only [next_u1, Except.ok.injEq, Prod.mk.injEq] at h
    exact ⟨a, by rw [h.2], h.1.symm⟩

/-- A successful two-byte read consumes exactly two bytes. -/
theorem next_u2_ok_inv {s : List Nat} {v : Nat} {s' : List Nat}
    (h : next_u2 s = .ok (v, s')) : ∃ a b, s = a :: b :: s' := by
  unfold next_u2 at h
  obtain ⟨⟨v1, s1⟩, h1, h⟩ := bind_ok h
  obtain ⟨⟨v2, s2⟩, h2, h⟩ := bind_ok h
  obtain ⟨a, ha, -⟩ := next_u1_ok_inv h1
  obtain ⟨b, hb, -⟩ := next_u1_ok_inv h2
  simp only [Except.ok.injEq, Prod.mk.injEq] at h
  exact ⟨a, b, by rw [ha, hb, h.2]⟩

/-- A successful four-byte read consumes exactly four bytes. -/
theorem next_u4_ok_inv {s : List Nat} {v : Nat} {s' : List Nat}
    (h : next_u4 s = .ok (v, s')) : ∃ a b c d, s = a :: b :: c :: d :: s' := by
  unfold next_u4 at h
  obtain ⟨⟨v1, s1⟩, h1, h⟩ := bind_ok h
  obtain ⟨⟨v2, s2⟩, h2, h⟩ := bind_ok h
  obtain ⟨a, b, hab⟩ := next_u2_ok_inv h1
  obtain ⟨c, d, hcd⟩ := next_u2_ok_inv h2
  simp only [Except.ok.injEq, Prod.mk.injEq] at h
  exact ⟨a, b, c, d, by rw [hab, hcd, h.2]⟩

/-- A successful n-byte raw read returns exactly the first n bytes (reduced
mod 256) and leaves exactly the rest. -/
theorem read_bytes_ok_inv :
    ∀ (n : Nat) (s bs rest : List Nat), read_bytes n s = .ok (bs, rest) →
      bs = (s.take n).map (fun b => b % 256) ∧ rest = s.drop n ∧ n ≤ s.length := by
  intro n
  induction n with
  | zero =>
    intro s bs rest h
    simp only [read_bytes, Except.ok.injEq, Prod.mk.injEq] at h
    simp [← h.1, ← h.2]
  | succ n ih =>
    intro s bs rest h
    cases s with
    | nil => simp [read_bytes, next_u1, Bind.bind, Except.bind] at h
    | cons a r =>
      unfold read_bytes at h
      obtain ⟨⟨b, s1⟩, h1, hk⟩ := bind_ok h
      obtain ⟨⟨bs', s2⟩, h2, hf⟩ := bind_ok hk
      simp only [next_u1, Except.ok.injEq, Prod.mk.injEq] at h1
      obtain ⟨hb, hs⟩ := h1
      subst hs
      obtain ⟨ih1, ih2, ih3⟩ := ih r bs' s2 h2
      simp only [Except.ok.injEq, Prod.mk.injEq] at hf
      refine ⟨?_, ?_, ?_⟩
      · rw [← hf.1, ← hb, ih1]; simp
      · rw [← hf.2, ih2]; simp
      · simp; omega

/-- A generated retrieval accessor on a slot whose variant the selector
rejects fails with the slot's friendly name. -/
theorem retrieval_of_none {α : Type} (matcher : ConstantPoolItem → Option α)
    (index : Nat) (pool : List ConstantPoolItem) (item : ConstantPoolItem)
    (hslot : pool[ConstantPoolItem.shift_index index]? = some item)
    (hm : matcher item = none) :
    constant_pool_retrieval_method matcher index pool =
      .error (.UnexpectedConstantPoolItem item.to_friendly_name) := by
  simp only [constant_pool_retrieval_method, hslot, hm]

/-- A generated retrieval accessor on a slot whose variant the selector
accepts returns the selected payload. -/
theorem retrieval_of_some {α : Type} (matcher : ConstantPoolItem → Option α)
    (index : Nat) (pool : List ConstantPoolItem) (item : ConstantPoolItem)
    (v : α) (hslot : pool[ConstantPoolItem.shift_index index]? = some item)
    (hm : matcher item = some v) :
    constant_pool_retrieval_method matcher index pool = .ok v := by
  simp only [constant_pool_retrieval_method, hslot, hm]

/-- The empty pool prefix satisfies the double-slot invariant. -/
theorem ldFollowed_nil : ldFollowed [] := by
  intro i item h
  simp at h

/-- Appending one non-Long-non-Double entry preserves the double-slot
invariant. -/
theorem ldFollowed_push (acc : List ConstantPoolItem) (item : ConstantPoolItem)
    (hacc : ldFollowed acc) (hitem : isLongOrDouble item = false) :
    ldFollowed (acc ++ [item]) := by
  intro i x hget hld
  by_cases hlt : i < acc.length
  · rw [List.getElem?_append_left hlt] at hget
    have h2 := hacc i x hget hld
    have hi1 : i + 1 < acc.length := (List.getElem?_eq_some_iff.mp h2).1
    rw [List.getElem?_append_left hi1]
    exact h2
  · rcases Nat.lt_or_ge i (acc.length + 1) with hi | hi
    · have hieq : i = acc.length := by omega
      subst hieq
      rw [List.getElem?_append_right (Nat.le_refl _)] at hget
      simp at hget
      simp [← hget, hitem] at hld
    · have hnone : (acc ++ [item])[i]? = none := by
        apply List.getElem?_eq_none
        simp
        omega
      rw [hnone] at hget
      cases hget

/-- Appending an entry plus the Empty placeholder preserves the double-slot
invariant. -/
theorem ldFollowed_push_pair (acc : List ConstantPoolItem)
    (item : ConstantPoolItem) (hacc : ldFollowed acc) :
    ldFollowed (acc ++ [item, .Empty]) := by
  intro i x hget hld
  by_cases hlt : i < acc.length
  · rw [List.getElem?_append_left hlt] at hget
    have h2 := hacc i x hget hld
    have hi1 : i + 1 < acc.length := (List.getElem?_eq_some_iff.mp h2).1
    rw [List.getElem?_append_left hi1]
    exact h2
  · rcases Nat.lt_or_ge i (acc.length + 1) with hi | hi
    · have hieq : i = acc.length := by omega
      subst hieq
      rw [List.getElem?_append_right (by omega : acc.length ≤ acc.length + 1)]
      have hone : acc.length + 1 - acc.length = 1 := by omega
      rw [hone]
      rfl
    · rcases Nat.lt_or_ge i (acc.length + 2) with hi2 | hi2
      · have hieq : i = acc.length + 1 := by omega
        subst hieq
        rw [List.getElem?_append_right (by omega)] at hget
        have hone : acc.length + 1 - acc.length = 1 := by omega
        rw [hone] at hget
        simp at hget
        simp [← hget, isLongOrDouble] at hld
      · have hnone : (acc ++ [item, .Empty])[i]? = none := by
          apply List.getElem?_eq_none
          simp
          omega
        rw [hnone] at hget
        cases hget

/-- The pool-building loop preserves the double-slot invariant of its
accumulator. -/
theorem build_loop_preserves :
    ∀ (n : Nat) (skip : Bool) (acc : List ConstantPoolItem) (s : List Nat)
      (pool : List ConstantPoolItem) (rest : List Nat),
      build_constant_pool_loop n skip acc s = .ok (pool, rest) →
      ldFollowed acc → ldFollowed pool := by
  intro n
  induction n with
  | zero =>
    intro skip acc s pool rest h hacc
    cases skip <;>
      · simp only [build_constant_pool_loop, Except.ok.injEq,
          Prod.mk.injEq] at h
        rw [← h.1]
        exact hacc
  | succ n ih =>
    intro skip acc s pool rest h hacc
    cases skip with
    | true =>
      simp only [build_constant_pool_loop] at h
      exact ih false acc s pool rest h hacc
    | false =>
      simp only [build_constant_pool_loop] at h
      cases hfb : ConstantPoolItem.fromBytes s with
      | error e => rw [hfb] at h; cases h
      | ok p =>
        obtain ⟨item, s'⟩ := p
        rw [hfb] at h
        cases item with
        | Long info =>
          exact ih true _ s' pool rest h (ldFollowed_push_pair acc _ hacc)
        | Double info =>
          exact ih true _ s' pool rest h (ldFollowed_push_pair acc _ hacc)
        | Empty => exact ih false _ s' pool rest h (ldFollowed_push acc _ hacc rfl)
        | Class info => exact ih false _ s' pool rest h (ldFollowed_push acc _ hacc rfl)
        | Field info => exact ih false _ s' pool rest h (ldFollowed_push acc _ hacc rfl)
        | Method info => exact ih false _ s' pool rest h (ldFollowed_push acc _ hacc rfl)
        | InterfaceMethod info => exact ih false _ s' pool rest h (ldFollowed_push acc _ hacc rfl)
        | String info => exact ih false _ s' pool rest h (ldFollowed_push acc _ hacc rfl)
        | Integer info => exact ih false _ s' pool rest h (ldFollowed_push acc _ hacc rfl)
        | Float info => exact ih false _ s' pool rest h (ldFollowed_push acc _ hacc rfl)
        | NameAndType info => exact ih false _ s' pool rest h (ldFollowed_push acc _ hacc rfl)
        | Utf8 info => exact ih false _ s' pool rest h (ldFollowed_push acc _ hacc rfl)
        | MethodHandle t k i => exact ih false _ s' pool rest h (ldFollowed_push acc _ hacc rfl)
        | MethodType t d => exact ih false _ s' pool rest h (ldFollowed_push acc _ hacc rfl)
        | InvokeDynamic t b nt => exact ih false _ s' pool rest h (ldFollowed_push acc _ hacc rfl)

/-- C2: every generated retrieval accessor looks up slot
declared_index - 1 (the shift is exact for declared indices ≥ 1), and
resolving declared index 0 fails with ConstantPoolIndexOutOfBounds for
every pool: the wrapping usize decrement sends 0 to 2^64 - 1, which is
outside every pool. -/
theorem C2_index_shift :
    (∀ idx, 1 ≤ idx → idx < 2 ^ 64 →
      ConstantPoolItem.shift_index idx = idx - 1) ∧
    (∀ (α : Type) (matcher : ConstantPoolItem → Option α)
        (pool : List ConstantPoolItem), pool.length < 2 ^ 64 →
      constant_pool_retrieval_method matcher 0 pool =
        .error (.ConstantPoolIndexOutOfBounds (2 ^ 64 - 1))) := by
  constructor
  · intro idx h1 h2
    unfold ConstantPoolItem.shift_index
    omega
  · intro α matcher pool hlen
    have hsh : ConstantPoolItem.shift_index 0 = 2 ^ 64 - 1 := by
      unfold ConstantPoolItem.shift_index
      omega
    have hnone : pool[(2 : Nat) ^ 64 - 1]? = none :=
      List.getElem?_eq_none (by omega)
    simp only [constant_pool_retrieval_method, hsh, hnone]

/-- Witness for C2 at declared index 5 and at index 0 on the empty pool. -/
theorem C2_index_shift_witness :
    ConstantPoolItem.shift_index 5 = 5 - 1 ∧
    constant_pool_retrieval_method (fun _ => (none : Option Nat)) 0
        ([] : List ConstantPoolItem) =
      .error (.ConstantPoolIndexOutOfBounds (2 ^ 64 - 1)) :=
  ⟨C2_index_shift.1 5 (by norm_num) (by norm_num),
   C2_index_shift.2 Nat (fun _ => none) [] (by norm_num)⟩

/-- C3 counterexample: tag 15 (MethodHandle on the wire) with a full
3-byte payload available is rejected with UnknownConstantPoolTag, so the
decoder does not return the MethodHandle variant for its tag. -/
theorem C3_counterexample :
    ConstantPoolItem.fromBytes [15, 1, 0, 1] =
      .error (.UnknownConstantPoolTag 15) := rfl

/-- C3 amended: the decoder returns the matching variant exactly for tags
1, 3, 4, 5, 6, 7, 8, 9, 10, 11 and 12 (given enough payload bytes), while
tags 15, 16 and 18 — whose MethodHandle, MethodType and InvokeDynamic
variants exist in the enum but have no decode arm — fail with
UnknownConstantPoolTag. -/
theorem C3_tag_dispatch :
    ∀ (a b c d e f g h : Nat) (rest : List Nat),
      ConstantPoolItem.fromBytes (1 :: 0 :: 0 :: rest) =
        .ok (.Utf8 ⟨1, 0, []⟩, rest) ∧
      ConstantPoolItem.fromBytes (3 :: a :: b :: c :: d :: rest) =
        .ok (.Integer ⟨3, (a % 256 * 256 + b % 256) * 65536 +
          (c % 256 * 256 + d % 256)⟩, rest) ∧
      ConstantPoolItem.fromBytes (4 :: a :: b :: c :: d :: rest) =
        .ok (.Float ⟨4, (a % 256 * 256 + b % 256) * 65536 +
          (c % 256 * 256 + d % 256)⟩, rest) ∧
      ConstantPoolItem.fromBytes
          (5 :: a :: b :: c :: d :: e :: f :: g :: h :: rest) =
        .ok (.Long ⟨5, (a % 256 * 256 + b % 256) * 65536 +
          (c % 256 * 256 + d % 256), (e % 256 * 256 + f % 256) * 65536 +
          (g % 256 * 256 + h % 256)⟩, rest) ∧
      ConstantPoolItem.fromBytes
          (6 :: a :: b :: c :: d :: e :: f :: g :: h :: rest) =
        .ok (.Double ⟨6, (a % 256 * 256 + b % 256) * 65536 +
          (c % 256 * 256 + d % 256), (e % 256 * 256 + f % 256) * 65536 +
          (g % 256 * 256 + h % 256)⟩, rest) ∧
      ConstantPoolItem.fromBytes (7 :: a :: b :: rest) =
        .ok (.Class ⟨7, a % 256 * 256 + b % 256⟩, rest) ∧
      ConstantPoolItem.fromBytes (8 :: a :: b :: rest) =
        .ok (.String ⟨8, a % 256 * 256 + b % 256⟩, rest) ∧
      ConstantPoolItem.fromBytes (9 :: a :: b :: c :: d :: rest) =
        .ok (.Field ⟨9, a % 256 * 256 + b % 256,
          c % 256 * 256 + d % 256⟩, rest) ∧
      ConstantPoolItem.fromBytes (10 :: a :: b :: c :: d :: rest) =
        .ok (.Method ⟨10, a % 256 * 256 + b % 256,
          c % 256 * 256 + d % 256⟩, rest) ∧
      ConstantPoolItem.fromBytes (11 :: a :: b :: c :: d :: rest) =
        .ok (.InterfaceMethod ⟨11, a % 256 * 256 + b % 256,
          c % 256 * 256 + d % 256⟩, rest) ∧
      ConstantPoolItem.fromBytes (12 :: a :: b :: c :: d :: rest) =
        .ok (.NameAndType ⟨12, a % 256 * 256 + b % 256,
          c % 256 * 256 + d % 256⟩, rest) ∧
      ConstantPoolItem.fromBytes (15 :: rest) =
        .error (.UnknownConstantPoolTag 15) ∧
      ConstantPoolItem.fromBytes (16 :: rest) =
        .error (.UnknownConstantPoolTag 16) ∧
      ConstantPoolItem.fromBytes (18 :: rest) =
        .error (.UnknownConstantPoolTag 18) := by
  intro a b c d e f g h rest
  exact ⟨rfl, rfl, rfl, rfl, rfl, rfl, rfl, rfl, rfl, rfl, rfl, rfl, rfl, rfl⟩

/-- C4 counterexample: resolving a Long slot through the Class accessor
fails with UnexpectedConstantPoolItem carrying the literal
"Not yet implemented" — not the actual entry kind name "Long". -/
theorem C4_counterexample :
    ConstantPoolItem.retrieve_class_info 1 [.Long ⟨5, 0, 0⟩] =
      .error (.UnexpectedConstantPoolItem "Not yet implemented") ∧
    ("Not yet implemented" : String) ≠ "Long" := ⟨rfl, by decide⟩

/-- C4 amended: a typed accessor applied to an in-bounds slot holding a
variant its selector rejects fails with UnexpectedConstantPoolItem carrying
the slot's to_friendly_name (the variant name for the implemented kinds and
the literal "Not yet implemented" for Long, Double, MethodHandle,
MethodType, InvokeDynamic), and a successful accessor call only ever
returns the payload selected from the slot actually stored there. -/
theorem C4_wrong_variant :
    (∀ (α : Type) (matcher : ConstantPoolItem → Option α) (idx : Nat)
        (pool : List ConstantPoolItem) (item : ConstantPoolItem),
      pool[ConstantPoolItem.shift_index idx]? = some item →
      matcher item = none →
      constant_pool_retrieval_method matcher idx pool =
        .error (.UnexpectedConstantPoolItem item.to_friendly_name)) ∧
    (∀ (α : Type) (matcher : ConstantPoolItem → Option α) (idx : Nat)
        (pool : List ConstantPoolItem) (v : α),
      constant_pool_retrieval_method matcher idx pool = .ok v →
      ∃ item, pool[ConstantPoolItem.shift_index idx]? = some item ∧
        matcher item = some v) := by
  constructor
  · intro α matcher idx pool item hslot hm
    exact retrieval_of_none matcher idx pool item hslot hm
  · intro α matcher idx pool v h
    simp only [constant_pool_retrieval_method] at h
    cases hslot : pool[ConstantPoolItem.shift_index idx]? with
    | none => rw [hslot] at h; cases h
    | some item =>
      rw [hslot] at h
      cases hm : matcher item with
      | none => simp [hm] at h
      | some w =>
        simp only [hm, Except.ok.injEq] at h
        exact ⟨item, rfl, by rw [hm, h]⟩

/-- Witness for C4 amended: the Utf8-as-Class mismatch from the claim text
yields the error carrying "Utf8". -/
theorem C4_wrong_variant_witness :
    constant_pool_retrieval_method
        (fun item => match item with
          | ConstantPoolItem.Class v => some v
          | _ => none) 1 [ConstantPoolItem.Utf8 ⟨1, 0, []⟩] =
      .error (.UnexpectedConstantPoolItem "Utf8") :=
  C4_wrong_variant.1 ClassInfo _ 1 [ConstantPoolItem.Utf8 ⟨1, 0, []⟩]
    (ConstantPoolItem.Utf8 ⟨1, 0, []⟩) rfl rfl

/-- C6: any tag byte outside the recognized set 1, 3..12 makes the
constant-pool entry decoder fail with UnknownConstantPoolTag carrying that
tag; no unknown tag is skipped. -/
theorem C6_unknown_tag_rejected :
    ∀ (tag : Nat) (rest : List Nat),
      tag % 256 ∉ ([1, 3, 4, 5, 6, 7, 8, 9, 10, 11, 12] : List Nat) →
      ConstantPoolItem.fromBytes (tag :: rest) =
        .error (.UnknownConstantPoolTag (tag % 256)) := by
  intro tag rest h
  unfold ConstantPoolItem.fromBytes
  simp only [next_u1, Bind.bind, Except.bind]
  split
  all_goals simp_all

/-- Witness for C6 at the claim's example tag 2. -/
theorem C6_unknown_tag_rejected_witness :
    ConstantPoolItem.fromBytes [2] = .error (.UnknownConstantPoolTag 2) :=
  C6_unknown_tag_rejected 2 [] (by decide)

/-- C9: a stream that ends in the middle of a constant-pool entry (here a
Class entry whose 2-byte name index is missing) makes the whole decode fail
with UnexpectedEndOfInput, for every choice of the preceding header bytes;
no partially populated ClassFile is produced. -/
theorem C9_truncated_input :
    ∀ (b1 b2 b3 b4 b5 b6 b7 b8 : Nat),
      ClassFile.fromBytes [b1, b2, b3, b4, b5, b6, b7, b8, 0, 2, 7] =
        .error .UnexpectedEndOfInput :=
  fun _ _ _ _ _ _ _ _ => rfl

/-- C10: a declared pool count of 0 is decremented with u16 wrap-around to
65535, so the decoder tries to read pool entries; a stream ending right
after the count fails with UnexpectedEndOfInput for every header, and the
all-zero 24-byte stream (count 0 followed by the zero header fields) fails
with UnknownConstantPoolTag 0 — neither ever yields a ClassFile with an
empty pool. -/
theorem C10_zero_pool_count_wraps :
    u16_wrapping_sub_one 0 = 65535 ∧
    (∀ (b1 b2 b3 b4 b5 b6 b7 b8 : Nat),
      ClassFile.fromBytes [b1, b2, b3, b4, b5, b6, b7, b8, 0, 0] =
        .error .UnexpectedEndOfInput) ∧
    ClassFile.fromBytes c10_stream = .error (.UnknownConstantPoolTag 0) :=
  ⟨rfl, fun _ _ _ _ _ _ _ _ => rfl, rfl⟩

/-- C1: in every pool successfully built by build_constant_pool, each Long
or Double entry at position i is immediately followed by the Empty
placeholder at position i + 1, and every typed accessor applied to an index
whose shifted slot holds that placeholder fails with
UnexpectedConstantPoolItem "Empty" — it never returns a decoded value. -/
theorem C1_double_slot_invariant :
    ∀ (count : Nat) (s : List Nat) (pool : List ConstantPoolItem)
      (rest : List Nat),
      ClassFile.build_constant_pool count s = .ok (pool, rest) →
      ldFollowed pool ∧
      (∀ idx, pool[ConstantPoolItem.shift_index idx]? =
          some ConstantPoolItem.Empty →
        ConstantPoolItem.retrieve_class_info idx pool =
          .error (.UnexpectedConstantPoolItem "Empty") ∧
        ConstantPoolItem.retrieve_utf8_info idx pool =
          .error (.UnexpectedConstantPoolItem "Empty") ∧
        ConstantPoolItem.retrieve_field_info idx pool =
          .error (.UnexpectedConstantPoolItem "Empty") ∧
        ConstantPoolItem.retrieve_method_info idx pool =
          .error (.UnexpectedConstantPoolItem "Empty") ∧
        ConstantPoolItem.retrieve_interface_method_info idx pool =
          .error (.UnexpectedConstantPoolItem "Empty") ∧
        ConstantPoolItem.retrieve_integer_info idx pool =
          .error (.UnexpectedConstantPoolItem "Empty") ∧
        ConstantPoolItem.retrieve_float_info idx pool =
          .error (.UnexpectedConstantPoolItem "Empty") ∧
        ConstantPoolItem.retrieve_long_info idx pool =
          .error (.UnexpectedConstantPoolItem "Empty") ∧
        ConstantPoolItem.retrieve_double_info idx pool =
          .error (.UnexpectedConstantPoolItem "Empty") ∧
        ConstantPoolItem.retrieve_string_info idx pool =
          .error (.UnexpectedConstantPoolItem "Empty") ∧
        ConstantPoolItem.retrieve_name_and_type_info idx pool =
          .error (.UnexpectedConstantPoolItem "Empty")) := by
  intro count s pool rest h
  refine ⟨build_loop_preserves count false [] s pool rest h ldFollowed_nil,
    ?_⟩
  intro idx hslot
  exact ⟨retrieval_of_none _ idx pool _ hslot rfl,
    retrieval_of_none _ idx pool _ hslot rfl,
    retrieval_of_none _ idx pool _ hslot rfl,
    retrieval_of_none _ idx pool _ hslot rfl,
    retrieval_of_none _ idx pool _ hslot rfl,
    retrieval_of_none _ idx pool _ hslot rfl,
    retrieval_of_none _ idx pool _ hslot rfl,
    retrieval_of_none _ idx pool _ hslot rfl,
    retrieval_of_none _ idx pool _ hslot rfl,
    retrieval_of_none _ idx pool _ hslot rfl,
    retrieval_of_none _ idx pool _ hslot rfl⟩

/-- Witness for C1 on the concrete pool built from one Long entry:
position 1 is the placeholder, and the (declared) index 2 pointing at it
fails through the Class accessor. -/
theorem C1_double_slot_invariant_witness :
    c1_pool[(0 : Nat) + 1]? = some ConstantPoolItem.Empty ∧
    ConstantPoolItem.retrieve_class_info 2 c1_pool =
      .error (.UnexpectedConstantPoolItem "Empty") :=
  ⟨(C1_double_slot_invariant 2 c1_stream c1_pool [] rfl).1 0
      (ConstantPoolItem.Long ⟨5, 0, 1⟩) rfl rfl,
   ((C1_double_slot_invariant 2 c1_stream c1_pool [] rfl).2 2 rfl).1⟩

/-- C5 counterexample: with a pool resolving the name to "Code" and a
declared attribute length of 7, the attribute decoder succeeds yet consumes
all 18 stream bytes (6 header bytes plus the 12-byte parsed code body),
not the 6 + 7 = 13 bytes the claim predicts: the declared length is ignored
in the Code case. -/
theorem C5_counterexample :
    attribute_fromBytes 19 c5_stream c5_pool =
      .ok (.Code (.mk 0 0 0 [] 0 [] 0 []), []) ∧
    c5_stream.length ≠ 2 + 4 + 7 + ([] : List Nat).length := ⟨rfl, by decide⟩

/-- C5 amended: every successful Attribute decode that takes the
opaque-blob branch consumes exactly the declared 4-byte length: the blob
holds exactly `len` bytes read from offset 6, the remaining stream is
everything after them, and the cursor advanced by exactly 6 + len; in the
"Code" branch the cursor instead advances past the parsed code structure,
whose size the declared length does not constrain. -/
theorem C5_opaque_exact_length :
    ∀ (fuel : Nat) (s : List Nat) (pool : List ConstantPoolItem)
      (name : Utf8Info) (info : List Nat) (rest : List Nat),
      attribute_fromBytes fuel s pool = .ok (.Unknown name info, rest) →
      ∃ len, next_u4 (s.drop 2) = .ok (len, s.drop 6) ∧
        info.length = len ∧
        info = ((s.drop 6).take len).map (fun b => b % 256) ∧
        rest = (s.drop 6).drop len ∧
        s.length = 6 + len + rest.length := by
  intro fuel s pool name info rest h
  cases fuel with
  | zero => simp [attribute_fromBytes] at h
  | succ fuel =>
    unfold attribute_fromBytes at h
    obtain ⟨⟨idx, s1⟩, h1, hk1⟩ := bind_ok h
    obtain ⟨nm, h2, hk2⟩ := bind_ok hk1
    obtain ⟨⟨len, s2⟩, h3, hk3⟩ := bind_ok hk2
    by_cases hc : nm.value = codeBytes
    · simp only [if_pos hc] at hk3
      obtain ⟨⟨ca, s3⟩, h4, hk4⟩ := bind_ok hk3
      simp at hk4
    · simp only [if_neg hc] at hk3
      obtain ⟨⟨info', s3⟩, h4, hk4⟩ := bind_ok hk3
      simp only [Except.ok.injEq, Prod.mk.injEq, Attribute.Unknown.injEq]
        at hk4
      obtain ⟨⟨hnm, hinfo⟩, hrest⟩ := hk4
      obtain ⟨a, b, hab⟩ := next_u2_ok_inv h1
      obtain ⟨c, d, e, f, hcdef⟩ := next_u4_ok_inv h3
      obtain ⟨hi1, hi2, hi3⟩ := read_bytes_ok_inv len s2 info' s3 h4
      subst hab hcdef
      refine ⟨len, ?_, ?_, ?_, ?_, ?_⟩
      · simpa using h3
      · rw [← hinfo, hi1]
        simp
        omega
      · rw [← hinfo, hi1]
        simp
      · rw [← hrest, hi2]
        simp
      · rw [← hrest, hi2]
        simp
        omega

/-- Witness for C5 amended on a concrete opaque attribute: name "A",
declared length 2, blob bytes 9 and 8, one byte left over. -/
theorem C5_opaque_exact_length_witness :
    ∃ len, next_u4 (c5w_stream.drop 2) = .ok (len, c5w_stream.drop 6) ∧
      ([9, 8] : List Nat).length = len ∧
      ([9, 8] : List Nat) =
        ((c5w_stream.drop 6).take len).map (fun b => b % 256) ∧
      ([7] : List Nat) = (c5w_stream.drop 6).drop len ∧
      c5w_stream.length = 6 + len + ([7] : List Nat).length :=
  C5_opaque_exact_length 10 c5w_stream c5w_pool ⟨1, 1, [65]⟩ [9, 8] [7] rfl

/-- C7 counterexample: the 24-byte stream whose first four bytes are all
zero decodes successfully, and the resulting magic field is 0, not
0xCAFEBABE: the decoder never validates the magic. -/
theorem C7_counterexample :
    ClassFile.fromBytes c7_stream = .ok (c7_classfile, []) ∧
    c7_classfile.magic ≠ 0xCAFEBABE := ⟨rfl, by decide⟩

/-- C7 amended: ClassFile decoding stores the big-endian u32 formed from
the first four stream bytes as the magic field without comparing it to
0xCAFEBABE; every successful decode has exactly that (arbitrary) value. -/
theorem C7_magic_unvalidated :
    ∀ (s : List Nat) (cf : ClassFile) (rest : List Nat),
      ClassFile.fromBytes s = .ok (cf, rest) →
      next_u4 s = .ok (cf.magic, s.drop 4) := by
  intro s cf rest h
  simp only [ClassFile.fromBytes] at h
  obtain ⟨⟨magic, s1⟩, h1, hk1⟩ := bind_ok h
  obtain ⟨⟨minor, s2⟩, h2, hk2⟩ := bind_ok hk1
  obtain ⟨⟨major, s3⟩, h3, hk3⟩ := bind_ok hk2
  obtain ⟨⟨cpc, s4⟩, h4, hk4⟩ := bind_ok hk3
  obtain ⟨⟨cp, s5⟩, h5, hk5⟩ := bind_ok hk4
  obtain ⟨⟨flags, s6⟩, h6, hk6⟩ := bind_ok hk5
  obtain ⟨⟨this_c, s7⟩, h7, hk7⟩ := bind_ok hk6
  obtain ⟨⟨super_c, s8⟩, h8, hk8⟩ := bind_ok hk7
  obtain ⟨⟨ifc, s9⟩, h9, hk9⟩ := bind_ok hk8
  obtain ⟨⟨ifs, s10⟩, h10, hk10⟩ := bind_ok hk9
  obtain ⟨⟨fc, s11⟩, h11, hk11⟩ := bind_ok hk10
  obtain ⟨⟨fs, s12⟩, h12, hk12⟩ := bind_ok hk11
  obtain ⟨⟨mc, s13⟩, h13, hk13⟩ := bind_ok hk12
  obtain ⟨⟨ms, s14⟩, h14, hk14⟩ := bind_ok hk13
  obtain ⟨⟨ac, s15⟩, h15, hk15⟩ := bind_ok hk14
  obtain ⟨⟨ats, s16⟩, h16, hk16⟩ := bind_ok hk15
  simp only [Except.ok.injEq, Prod.mk.injEq] at hk16
  obtain ⟨hcf, hrest⟩ := hk16
  obtain ⟨a, b, c, d, habcd⟩ := next_u4_ok_inv h1
  subst habcd
  rw [← hcf]
  exact h1

/-- Witness for C7 amended on the magic-0 stream. -/
theorem C7_magic_unvalidated_witness :
    next_u4 c7_stream = .ok (c7_classfile.magic, c7_stream.drop 4) :=
  C7_magic_unvalidated c7_stream c7_classfile [] rfl

/-- C8 counterexample: the same magic-0 stream decodes successfully with
this_class 0 and an empty pool, and resolving that index through
retrieve_class_info fails (wrapped index out of bounds) instead of
producing a Class entry. -/
theorem C8_counterexample :
    ClassFile.fromBytes c7_stream = .ok (c7_classfile, []) ∧
    ConstantPoolItem.retrieve_class_info c7_classfile.this_class
        c7_classfile.constant_pool =
      .error (.ConstantPoolIndexOutOfBounds (2 ^ 64 - 1)) := ⟨rfl, rfl⟩

/-- C8 amended: the decoder performs no validation of this_class or
super_class; their typed resolution succeeds exactly when the decoded pool
happens to hold a Class entry at the shifted slot, which well-formed inputs
provide but which ClassFile decoding itself never checks. -/
theorem C8_class_refs_unchecked :
    ∀ (s : List Nat) (cf : ClassFile) (rest : List Nat) (info : ClassInfo),
      ClassFile.fromBytes s = .ok (cf, rest) →
      (cf.constant_pool[ConstantPoolItem.shift_index cf.this_class]? =
          some (.Class info) →
        ConstantPoolItem.retrieve_class_info cf.this_class cf.constant_pool =
          .ok info) ∧
      (cf.constant_pool[ConstantPoolItem.shift_index cf.super_class]? =
          some (.Class info) →
        ConstantPoolItem.retrieve_class_info cf.super_class cf.constant_pool =
          .ok info) := by
  intro s cf rest info _
  constructor
  · intro hslot
    exact retrieval_of_some _ _ _ _ info hslot rfl
  · intro hslot
    exact retrieval_of_some _ _ _ _ info hslot rfl

/-- Witness for C8 amended on the well-formed stream c8_stream, whose
this_class index 1 holds a Class entry. -/
theorem C8_class_refs_unchecked_witness :
    ConstantPoolItem.retrieve_class_info c8_classfile.this_class
        c8_classfile.constant_pool = .ok ⟨7, 2⟩ :=
  (C8_class_refs_unchecked c8_stream c8_classfile [] ⟨7, 2⟩ rfl).1 rfl

end Pantomime
